import Mathlib

set_option maxHeartbeats 1000000

/-!
Shallow embedding of the Google Drive connector permission layer of the
repository (src/unnamed/part_006: `retrieveGoogleDriveConnectorPermissions`,
`setGoogleDriveConnectorPermissions`, `retrieveGoogleDriveObjectsTitles`) and
of the Google Drive webhook endpoint (src/unnamed/part_005:
`_webhookGoogleDriveAPIHandler`).

Database tables (Sequelize models `GoogleDriveFolders` / `GoogleDriveFiles` /
`GoogleDriveWebhook` / connectors) are embedded as lists of row structures and
queries as list operations.  Remote collaborators (the Google Drive API, the
Temporal workflow launchers) are passed in as explicit function parameters so
that the functions under study stay pure; an invocation of a workflow launcher
is recorded in the function result instead of being performed.
-/

/-- Result type mirroring Result with constructors Ok and Err from
the repository's result library (imported in part_006 lines 18-19). -/
inductive Result (α : Type) (ε : Type) where
  | Ok : α → Result α ε
  | Err : ε → Result α ε
deriving Repr, DecidableEq

/-- True exactly on Ok values (Result.isOk from the result library). -/
def Result.isOk {α ε : Type} : Result α ε → Bool
  | .Ok _ => true
  | .Err _ => false

/-- True exactly on Err values (Result.isErr from the result library). -/
def Result.isErr {α ε : Type} : Result α ε → Bool
  | .Ok _ => false
  | .Err _ => true

/-- The ConnectorPermission union from @dust-tt/types:
"read" | "write" | "read_write" | "none". -/
inductive ConnectorPermission where
  | read
  | write
  | read_write
  | none
deriving Repr, DecidableEq

/-- Rendering of a ConnectorPermission value, used when the source code
interpolates the permission into an error message. -/
def ConnectorPermission.str : ConnectorPermission → String
  | .read => "read"
  | .write => "write"
  | .read_write => "read_write"
  | .none => "none"

/-- Modelled from the spec: the node kind of a connector node.  The
ConnectorNodeType union of @dust-tt/types is not among the sources; the spec's
data model gives the node kind as folder | file, which are also the only two
kinds this connector module produces. -/
inductive ConnectorNodeType where
  | folder
  | file
deriving Repr, DecidableEq

/-- A row of the GoogleDriveFolders table (the spec's MirroredFolder):
connector id and remote folder id (model imported in part_006 line 12). -/
structure GoogleDriveFolder where
  connectorId : Nat
  folderId : String
deriving Repr, DecidableEq

/-- A row of the GoogleDriveFiles table (the spec's MirroredFile): connector
id, remote file id, parent id, cached name, mime type and last-upsert
timestamp in milliseconds (model imported in part_006 line 12). -/
structure GoogleDriveFile where
  connectorId : Nat
  driveFileId : String
  parentId : Option String
  name : String
  mimeType : String
  lastUpsertedTs : Option Nat
deriving Repr, DecidableEq

/-- A connector row as far as this module reads it: id, provider type and the
pause marker backing ConnectorResource.isPaused (the spec's Connector). -/
structure ConnectorRow where
  id : Nat
  type : String
  pausedAt : Option Nat
deriving Repr, DecidableEq

/-- ConnectorResource.isPaused: a connector is paused when its pause marker is
set. -/
def ConnectorRow.isPaused (c : ConnectorRow) : Bool :=
  c.pausedAt.isSome

/-- The remote object shape returned by getGoogleDriveObject /
driveObjectToDustType (the spec's RemoteNode): id, display name, parent id,
last-modified timestamp in milliseconds and optional external view URL. -/
structure GoogleDriveObjectType where
  id : String
  name : String
  parent : Option String
  updatedAtMs : Option Nat
  webViewLink : Option String
deriving Repr, DecidableEq

/-- The ConnectorNode descriptor from @dust-tt/types as populated by
part_006. -/
structure ConnectorNode where
  provider : String
  internalId : String
  parentInternalId : Option String
  type : ConnectorNodeType
  title : String
  sourceUrl : Option String
  dustDocumentId : Option String
  lastUpdatedAt : Option Nat
  expandable : Bool
  permission : ConnectorPermission
deriving Repr, DecidableEq

/-- JavaScript coercion `x || null` on an optional number: 0 is falsy, so a
present 0 collapses to null (part_006 lines 367, 408, 453, 516). -/
def jsNumOrNull (o : Option Nat) : Option Nat :=
  match o with
  | some 0 => Option.none
  | x => x

/-- Modelled: JS String.prototype.localeCompare as used with its default
arguments on node titles, modelled as case-sensitive code-point lexicographic
comparison (the reading the spec itself gives for this comparator). -/
def localeCompare (a b : String) : Int :=
  if a < b then -1 else if a = b then 0 else 1

/-- The title-only sort comparator of part_006 lines 384-386, 467-469 and
529-531. -/
def compareByTitle (a b : ConnectorNode) : Int :=
  localeCompare a.title b.title

/-- The folders-first sort comparator of part_006 lines 425-430: nodes of
different kinds are ordered folder first, nodes of the same kind by title. -/
def compareFoldersFirst (a b : ConnectorNode) : Int :=
  if a.type ≠ b.type then (if a.type = ConnectorNodeType.folder then -1 else 1)
  else localeCompare a.title b.title

/-- JS Array.prototype.sort with an integer comparator: a stable sort putting
a before b whenever the comparator is nonpositive, embedded as mergeSort. -/
def sortNodes (cmp : ConnectorNode → ConnectorNode → Int)
    (ns : List ConnectorNode) : List ConnectorNode :=
  ns.mergeSort (fun a b => decide (cmp a b ≤ 0))

/-- GoogleDriveFolders.findAll restricted to one connector (part_006 lines
346-350). -/
def foldersForConnector (folders : List GoogleDriveFolder) (cid : Nat) :
    List GoogleDriveFolder :=
  folders.filter (fun f => f.connectorId == cid)

/-- Existence check GoogleDriveFolders.findOne on (connectorId, folderId)
(part_006 lines 455-462 and 517-524). -/
def hasFolderRow (folders : List GoogleDriveFolder) (cid : Nat) (id : String) :
    Bool :=
  folders.any (fun f => f.connectorId == cid && f.folderId == id)

/-- Existence check GoogleDriveFiles.findOne on (connectorId, parentId), the
expandable computation of part_006 lines 369-375 and 411-417.  The
folderHasChildren activity used at lines 454 and 514 is not among the sources;
modelled from the spec: expandable means having at least one locally mirrored
child, which is the same local-store existence check. -/
def hasFileWithParent (files : List GoogleDriveFile) (cid : Nat)
    (parent : String) : Bool :=
  files.any (fun g => g.connectorId == cid && g.parentId == some parent)

/-- GoogleDriveFiles.findAll on (connectorId, parentId), part_006 lines
391-396. -/
def filesForParent (files : List GoogleDriveFile) (cid : Nat)
    (parent : String) : List GoogleDriveFile :=
  files.filter (fun f => f.connectorId == cid && f.parentId == some parent)

/-- Modelled from the spec: getPermissionViewType (from the google_drive
permissions library, not among the sources) classifies a mirrored row as
folder or file; the spec's reconciler classifies nodes as folder or file. -/
def getPermissionViewType (f : GoogleDriveFile) : ConnectorNodeType :=
  if f.mimeType == "application/vnd.google-apps.folder" then .folder else .file

/-- Modelled from the spec: getGoogleDriveEntityDocumentId (not among the
sources) derives the document id of a mirrored file; its exact format is
irrelevant to the claims. -/
def getGoogleDriveEntityDocumentId (f : GoogleDriveFile) : String :=
  "gdrive-" ++ f.driveFileId

/-- The node built for one selected folder in the read / root branch,
part_006 lines 359-377: enriched with the live remote name and update time,
always of kind folder, with no parent link and permission read. -/
def readRootNode (c : ConnectorRow) (files : List GoogleDriveFile)
    (f : GoogleDriveFolder) (fd : GoogleDriveObjectType) : ConnectorNode :=
  { provider := c.type
    internalId := f.folderId
    parentInternalId := Option.none
    type := ConnectorNodeType.folder
    title := fd.name
    sourceUrl := Option.none
    dustDocumentId := Option.none
    lastUpdatedAt := jsNumOrNull fd.updatedAtMs
    expandable := hasFileWithParent files c.id f.folderId
    permission := ConnectorPermission.read }

/-- The read / root branch of retrieveGoogleDriveConnectorPermissions
(part_006 lines 344-388): list the connector's GoogleDriveFolders rows, look
each up remotely (getGoogleDriveObject), silently drop the ones that resolve
to nothing (removeNulls), and sort by title.  concurrentExecutor evaluates the
per-row lookups with bounded concurrency but keeps the input order, so the
combination is an order-preserving filterMap. -/
def retrieveReadRoot (c : ConnectorRow) (folders : List GoogleDriveFolder)
    (files : List GoogleDriveFile)
    (getObject : String → Option GoogleDriveObjectType) : List ConnectorNode :=
  sortNodes compareByTitle
    ((foldersForConnector folders c.id).filterMap
      (fun f => (getObject f.folderId).map (readRootNode c files f)))

/-- The node built for one mirrored child row in the read / children branch,
part_006 lines 401-419: parentInternalId is the literal null and permission
the literal "read". -/
def readChildNode (c : ConnectorRow) (files : List GoogleDriveFile)
    (f : GoogleDriveFile) : ConnectorNode :=
  { provider := c.type
    internalId := f.driveFileId
    parentInternalId := Option.none
    type := getPermissionViewType f
    title := f.name
    sourceUrl := Option.none
    dustDocumentId := some (getGoogleDriveEntityDocumentId f)
    lastUpdatedAt := jsNumOrNull f.lastUpsertedTs
    expandable := hasFileWithParent files c.id f.driveFileId
    permission := ConnectorPermission.read }

/-- The read / children branch of retrieveGoogleDriveConnectorPermissions
(part_006 lines 389-433): all GoogleDriveFiles rows under the given parent,
sorted folders first then by title. -/
def retrieveReadChildren (c : ConnectorRow) (files : List GoogleDriveFile)
    (parent : String) : List ConnectorNode :=
  sortNodes compareFoldersFirst
    ((filesForParent files c.id parent).map (readChildNode c files))

/-- The node built for one remote drive or remote folder in the two discover
branches, part_006 lines 445-463 and 507-525: kind folder, permission read
exactly when a GoogleDriveFolders row exists for it. -/
def discoverNode (c : ConnectorRow) (folders : List GoogleDriveFolder)
    (files : List GoogleDriveFile) (dobj : GoogleDriveObjectType) :
    ConnectorNode :=
  { provider := c.type
    internalId := dobj.id
    parentInternalId := dobj.parent
    type := ConnectorNodeType.folder
    title := dobj.name
    sourceUrl := dobj.webViewLink
    dustDocumentId := Option.none
    lastUpdatedAt := jsNumOrNull dobj.updatedAtMs
    expandable := hasFileWithParent files c.id dobj.id
    permission :=
      if hasFolderRow folders c.id dobj.id then ConnectorPermission.read
      else ConnectorPermission.none }

/-- Resolution of each drive id through getGoogleDriveObject in the discover /
root branch (part_006 lines 439-465); a missing drive throws, which surfaces
as a failed call. -/
def resolveDrives (getObject : String → Option GoogleDriveObjectType) :
    List String → Result (List GoogleDriveObjectType) String
  | [] => .Ok []
  | d :: ds =>
    match getObject d with
    | Option.none => .Err ("Drive " ++ d ++ " unexpectedly not found (got 404).")
    | some obj =>
      match resolveDrives getObject ds with
      | .Err e => .Err e
      | .Ok objs => .Ok (obj :: objs)

/-- The discover / root branch of retrieveGoogleDriveConnectorPermissions
(part_006 lines 435-471): the remote shared drives (getDrivesIds), each
resolved remotely, annotated and sorted by title. -/
def retrieveDiscoverRoot (c : ConnectorRow) (folders : List GoogleDriveFolder)
    (files : List GoogleDriveFile)
    (getObject : String → Option GoogleDriveObjectType)
    (drives : List String) : Result (List ConnectorNode) String :=
  match resolveDrives getObject drives with
  | .Err e => .Err e
  | .Ok objs =>
    .Ok (sortNodes compareByTitle (objs.map (discoverNode c folders files)))

/-- The discover / children branch of retrieveGoogleDriveConnectorPermissions
(part_006 lines 472-534): the remote pagination loop concatenates the pages of
child folders of the parent until the page cursor is exhausted; the resulting
nodes are annotated and sorted by title. -/
def retrieveDiscoverChildren (c : ConnectorRow)
    (folders : List GoogleDriveFolder) (files : List GoogleDriveFile)
    (pages : List (List GoogleDriveObjectType)) : List ConnectorNode :=
  sortNodes compareByTitle
    (pages.flatten.map (discoverNode c folders files))

/-- The remote collaborators of retrieveGoogleDriveConnectorPermissions:
per-id object lookup (getGoogleDriveObject), the shared drive ids
(getDrivesIds), the finite page sequence produced by the files.list pagination
for a given parent, and an optional page-fetch failure (a non-200 status or a
missing files field, which the source turns into a thrown error). -/
structure RemoteEnv where
  getObject : String → Option GoogleDriveObjectType
  drives : List String
  childFolderPages : String → List (List GoogleDriveObjectType)
  childFetchError : Option String

/-- retrieveGoogleDriveConnectorPermissions (part_006 lines 330-538).  The
four branches are selected by filterPermission ("read" or null, anything else
is rejected) and parentInternalId; errors thrown inside the source function
surface here as Err results. -/
def retrieveGoogleDriveConnectorPermissions
    (connector : Option ConnectorRow) (folders : List GoogleDriveFolder)
    (files : List GoogleDriveFile) (env : RemoteEnv)
    (parentInternalId : Option String)
    (filterPermission : Option ConnectorPermission) :
    Result (List ConnectorNode) String :=
  match connector with
  | Option.none => .Err "Connector not found"
  | some c =>
    match filterPermission with
    | some ConnectorPermission.read =>
      match parentInternalId with
      | Option.none => .Ok (retrieveReadRoot c folders files env.getObject)
      | some parent => .Ok (retrieveReadChildren c files parent)
    | Option.none =>
      match parentInternalId with
      | Option.none => retrieveDiscoverRoot c folders files env.getObject env.drives
      | some parent =>
        match env.childFetchError with
        | some msg => .Err msg
        | Option.none =>
          .Ok (retrieveDiscoverChildren c folders files
            (env.childFolderPages parent))
    | some p => .Err ("Invalid permission: " ++ p.str)

/-- GoogleDriveFolders.destroy on (connectorId, folderId), part_006 lines
553-558: removes every matching row (zero rows is fine). -/
def destroyFolder (folders : List GoogleDriveFolder) (cid : Nat) (id : String) :
    List GoogleDriveFolder :=
  folders.filter (fun f => !(f.connectorId == cid && f.folderId == id))

/-- GoogleDriveFolders.upsert on (connectorId, folderId), part_006 lines
560-563: inserts the row unless one with the same key already exists (the row
has no other columns, so the update half of the upsert changes nothing). -/
def upsertFolder (folders : List GoogleDriveFolder) (cid : Nat) (id : String) :
    List GoogleDriveFolder :=
  if hasFolderRow folders cid id then folders else folders ++ [⟨cid, id⟩]

/-- The entry loop of setGoogleDriveConnectorPermissions (part_006 lines
550-569): shouldFullSync is set on every iteration before the permission value
is examined; "none" destroys, "read" upserts, anything else returns the
invalid entry immediately, leaving the remaining entries unprocessed. -/
def applyPermissionEntries (cid : Nat)
    (entries : List (String × ConnectorPermission))
    (folders : List GoogleDriveFolder) (shouldFullSync : Bool) :
    List GoogleDriveFolder × Bool × Option (String × ConnectorPermission) :=
  match entries with
  | [] => (folders, shouldFullSync, Option.none)
  | (id, p) :: rest =>
    match p with
    | ConnectorPermission.none =>
      applyPermissionEntries cid rest (destroyFolder folders cid id) true
    | ConnectorPermission.read =>
      applyPermissionEntries cid rest (upsertFolder folders cid id) true
    | other => (folders, true, some (id, other))

/-- The observable outcome of setGoogleDriveConnectorPermissions: the
GoogleDriveFolders table after the call, whether
launchGoogleDriveFullSyncWorkflow was invoked, and the returned Result. -/
structure SetPermissionsOutcome where
  folders : List GoogleDriveFolder
  fullSyncLaunched : Bool
  result : Result Unit String
deriving Repr, DecidableEq

/-- setGoogleDriveConnectorPermissions (part_006 lines 540-576).  The batch is
the entry list of the permissions record in iteration order.  On an invalid
permission value the loop returns Err at once: earlier entries stay applied
and the full-sync workflow is not launched.  When the loop completes, the
full-sync workflow is launched exactly when shouldFullSync was set, that is,
when the batch was nonempty. -/
def setGoogleDriveConnectorPermissions (connector : Option ConnectorRow)
    (cid : Nat) (permissions : List (String × ConnectorPermission))
    (folders : List GoogleDriveFolder) : SetPermissionsOutcome :=
  match connector with
  | Option.none => ⟨folders, false, .Err "Connector not found"⟩
  | some _ =>
    match applyPermissionEntries cid permissions folders false with
    | (fs, should, Option.none) => ⟨fs, should, .Ok ()⟩
    | (fs, _, some (id, p)) =>
      ⟨fs, false, .Err ("Invalid permission " ++ p.str ++ " for node " ++ id)⟩

/-- Assignment acc[k] = v on a JS record embedded as an association list in
first-insertion key order: an existing key is overwritten in place, a new key
is appended. -/
def setRecordKey (m : List (String × String)) (k v : String) :
    List (String × String) :=
  if m.any (fun p => p.1 == k) then
    m.map (fun p => if p.1 == k then (k, v) else p)
  else m ++ [(k, v)]

/-- retrieveGoogleDriveObjectsTitles (part_006 lines 578-595): a purely local
findAll over GoogleDriveFiles restricted to the requested ids, reduced to a
record mapping drive file id to cached name; always returns Ok. -/
def retrieveGoogleDriveObjectsTitles (cid : Nat) (internalIds : List String)
    (files : List GoogleDriveFile) : Result (List (String × String)) String :=
  .Ok ((files.filter
      (fun f => f.connectorId == cid && internalIds.contains f.driveFileId)).foldl
    (fun acc f => setRecordKey acc f.driveFileId f.name) [])

/-- A row of the GoogleDriveWebhook table as read by the webhook endpoint
(part_005 lines 48-58): provider channel id and connector id. -/
structure GoogleDriveWebhookRow where
  webhookId : String
  connectorId : Nat
deriving Repr, DecidableEq

/-- Outcome of launchGoogleDriveIncrementalSyncWorkflow for a connector: the
launch succeeded, was rejected by the rate limiter (RateLimitError), or failed
with another error message. -/
inductive LaunchOutcome where
  | launched
  | rateLimited
  | failed (msg : String)
deriving Repr, DecidableEq

/-- The collaborators of the webhook endpoint: the GoogleDriveWebhook table,
the connectors table, and the incremental-sync workflow launcher. -/
structure WebhookEnv where
  webhooks : List GoogleDriveWebhookRow
  connectors : List ConnectorRow
  launchIncrementalSync : Nat → LaunchOutcome

/-- The inbound request as read by the endpoint: the x-goog-channel-id header
and the optional connector_id route parameter. -/
structure WebhookRequest where
  channelIdHeader : Option String
  connectorIdParam : Option String
deriving Repr, DecidableEq

/-- The observable outcome of the endpoint: the HTTP status code sent to the
provider and the list of connector ids for which the incremental-sync launch
was invoked. -/
structure WebhookResponse where
  status : Nat
  launchCalls : List Nat
deriving Repr, DecidableEq

/-- JS truthiness on an optional string: undefined and the empty string are
falsy. -/
def jsTruthyString (o : Option String) : Option String :=
  match o with
  | some s => if s = "" then Option.none else some s
  | Option.none => Option.none

/-- Modelled: JS parseInt with radix 10 on a route parameter: the longest
prefix of decimal digits, NaN (here Option.none) when there is none.  Signs
and leading whitespace do not occur in route parameters and are not
modelled. -/
def parseIntJS (s : String) : Option Nat :=
  let ds := s.toList.takeWhile (fun ch => ch.isDigit)
  if ds.isEmpty then Option.none
  else some (ds.foldl (fun n ch => n * 10 + (ch.toNat - 48)) 0)

/-- Connector id resolution of part_005 lines 48-64: the GoogleDriveWebhook
row matching the channel id wins; otherwise the connector_id route parameter
is parsed as a fallback. -/
def resolveConnectorId (env : WebhookEnv) (req : WebhookRequest)
    (channelId : String) : Option Nat :=
  match env.webhooks.find? (fun w => w.webhookId == channelId) with
  | some w => some w.connectorId
  | Option.none =>
    match jsTruthyString req.connectorIdParam with
    | some s => parseIntJS s
    | Option.none => Option.none

/-- The falsiness guard of part_005 line 65: a missing connector id and the
(falsy) id 0 both fail resolution. -/
def resolveConnectorIdTruthy (env : WebhookEnv) (req : WebhookRequest)
    (channelId : String) : Option Nat :=
  match resolveConnectorId env req channelId with
  | some cid => if cid == 0 then Option.none else some cid
  | Option.none => Option.none

/-- The tail of the endpoint once a connector id is resolved (part_005 lines
74-119): unknown connector gives 404; a paused connector is acknowledged with
200 without invoking the launcher; otherwise the launcher is invoked and a
rate-limited rejection is still acknowledged with 200 while any other launch
failure becomes a 500. -/
def handleResolvedConnector (env : WebhookEnv) (cid : Nat) : WebhookResponse :=
  match env.connectors.find? (fun c => c.id == cid) with
  | Option.none => ⟨404, []⟩
  | some connector =>
    if connector.isPaused then ⟨200, []⟩
    else
      match env.launchIncrementalSync cid with
      | .launched => ⟨200, [cid]⟩
      | .rateLimited => ⟨200, [cid]⟩
      | .failed _ => ⟨500, [cid]⟩

/-- The Google Drive webhook endpoint, part_005 lines 30-120 (the withLogging
wrapper only adds logging and is omitted): a missing or empty channel id
header gives 400, an unresolvable connector id gives 400, and the rest is
handleResolvedConnector. -/
def webhookGoogleDriveAPIHandler (env : WebhookEnv) (req : WebhookRequest) :
    WebhookResponse :=
  match jsTruthyString req.channelIdHeader with
  | Option.none => ⟨400, []⟩
  | some channelId =>
    match resolveConnectorIdTruthy env req channelId with
    | Option.none => ⟨400, []⟩
    | some cid => handleResolvedConnector env cid

/-- The ordering the spec promises on a result list: no file ever precedes a
folder, and within the same kind the titles are non-decreasing in the
case-sensitive lexicographic order. -/
def nodeSpecOrder (a b : ConnectorNode) : Prop :=
  (b.type = ConnectorNodeType.folder → a.type = ConnectorNodeType.folder) ∧
  (a.type = b.type → a.title ≤ b.title)

theorem localeCompare_nonpos (a b : String) :
    localeCompare a b ≤ 0 ↔ a ≤ b := by
  unfold localeCompare
  by_cases h1 : a < b
  · simp only [h1, if_true]
    constructor
    · intro _; exact le_of_lt h1
    · intro _; decide
  · by_cases h2 : a = b
    · subst h2
      simp
    · simp only [h1, h2, if_false]
      constructor
      · intro h; exact absurd h (by decide)
      · intro hle; exact absurd (le_antisymm hle (not_lt.mp h1)) h2

theorem compareFoldersFirst_nonpos (a b : ConnectorNode) :
    compareFoldersFirst a b ≤ 0 ↔
      (a.type = ConnectorNodeType.folder ∧ b.type = ConnectorNodeType.file) ∨
      (a.type = b.type ∧ a.title ≤ b.title) := by
  unfold compareFoldersFirst
  cases ha : a.type <;> cases hb : b.type <;>
    simp [ha, hb, localeCompare_nonpos]

theorem sortNodes_pairwise_title (ns : List ConnectorNode)
    (hall : ∀ n ∈ ns, n.type = ConnectorNodeType.folder) :
    (sortNodes compareByTitle ns).Pairwise nodeSpecOrder := by
  have htrans : ∀ a b c : ConnectorNode,
      decide (compareByTitle a b ≤ 0) = true →
      decide (compareByTitle b c ≤ 0) = true →
      decide (compareByTitle a c ≤ 0) = true := by
    intro a b c hab hbc
    simp only [decide_eq_true_eq, compareByTitle, localeCompare_nonpos] at *
    exact le_trans hab hbc
  have htotal : ∀ a b : ConnectorNode,
      (decide (compareByTitle a b ≤ 0) || decide (compareByTitle b a ≤ 0)) = true := by
    intro a b
    simp only [Bool.or_eq_true, decide_eq_true_eq, compareByTitle,
      localeCompare_nonpos]
    exact le_total a.title b.title
  have hs := List.sorted_mergeSort htrans htotal ns
  unfold sortNodes
  refine hs.imp_of_mem ?_
  intro a b ha hb hab
  have ha2 := hall a (List.mem_mergeSort.mp ha)
  refine ⟨fun _ => ha2, fun _ => ?_⟩
  simpa [compareByTitle, localeCompare_nonpos] using hab

theorem sortNodes_pairwise_foldersFirst (ns : List ConnectorNode) :
    (sortNodes compareFoldersFirst ns).Pairwise nodeSpecOrder := by
  have htrans : ∀ a b c : ConnectorNode,
      decide (compareFoldersFirst a b ≤ 0) = true →
      decide (compareFoldersFirst b c ≤ 0) = true →
      decide (compareFoldersFirst a c ≤ 0) = true := by
    intro a b c hab hbc
    simp only [decide_eq_true_eq, compareFoldersFirst_nonpos] at *
    rcases hab with ⟨haf, hbfile⟩ | ⟨hteq, hle⟩ <;>
      rcases hbc with ⟨hbf, hcfile⟩ | ⟨hteq2, hle2⟩
    · rw [hbfile] at hbf; cases hbf
    · exact Or.inl ⟨haf, by rw [← hteq2]; exact hbfile⟩
    · exact Or.inl ⟨by rw [hteq]; exact hbf, hcfile⟩
    · exact Or.inr ⟨hteq.trans hteq2, le_trans hle hle2⟩
  have htotal : ∀ a b : ConnectorNode,
      (decide (compareFoldersFirst a b ≤ 0) ||
        decide (compareFoldersFirst b a ≤ 0)) = true := by
    intro a b
    simp only [Bool.or_eq_true, decide_eq_true_eq, compareFoldersFirst_nonpos]
    cases ha : a.type <;> cases hb : b.type <;>
      rcases le_total a.title b.title with h | h <;> simp [ha, hb, h]
  have hs := List.sorted_mergeSort htrans htotal ns
  unfold sortNodes
  refine hs.imp ?_
  intro a b hab
  simp only [decide_eq_true_eq, compareFoldersFirst_nonpos] at hab
  rcases hab with ⟨haf, hbfile⟩ | ⟨hteq, hle⟩
  · refine ⟨fun hbf => ?_, fun heq => ?_⟩
    · rw [hbfile] at hbf; cases hbf
    · rw [haf, hbfile] at heq; cases heq
  · exact ⟨fun hbf => by rw [hteq]; exact hbf, fun _ => hle⟩

/-- C3: for every successful listVisibleNodes call
(retrieveGoogleDriveConnectorPermissions, any filter and any parent id), the
returned node list is sorted with all folders before all files, and within
nodes of the same kind the titles appear in non-decreasing case-sensitive
lexicographic order, regardless of how the remote API or the local store
ordered them. -/
theorem retrievePermissions_sorted
    (connector : Option ConnectorRow) (folders : List GoogleDriveFolder)
    (files : List GoogleDriveFile) (env : RemoteEnv)
    (parent : Option String) (filter : Option ConnectorPermission)
    (nodes : List ConnectorNode)
    (h : retrieveGoogleDriveConnectorPermissions connector folders files env
      parent filter = .Ok nodes) :
    nodes.Pairwise nodeSpecOrder := by
  cases connector with
  | none => exact absurd h (by simp [retrieveGoogleDriveConnectorPermissions])
  | some c =>
    cases filter with
    | none =>
      cases parent with
      | none =>
        unfold retrieveGoogleDriveConnectorPermissions retrieveDiscoverRoot at h
        cases hres : resolveDrives env.getObject env.drives with
        | Err e => rw [hres] at h; exact absurd h (by simp)
        | Ok objs =>
          rw [hres] at h
          injection h with h
          subst h
          apply sortNodes_pairwise_title
          intro n hn
          rcases List.mem_map.mp hn with ⟨o, _, rfl⟩
          rfl
      | some p =>
        unfold retrieveGoogleDriveConnectorPermissions at h
        cases hferr : env.childFetchError with
        | some msg => rw [hferr] at h; exact absurd h (by simp)
        | none =>
          rw [hferr] at h
          injection h with h
          subst h
          unfold retrieveDiscoverChildren
          apply sortNodes_pairwise_title
          intro n hn
          rcases List.mem_map.mp hn with ⟨o, _, rfl⟩
          rfl
    | some perm =>
      cases perm with
      | read =>
        cases parent with
        | none =>
          injection h with h
          subst h
          unfold retrieveReadRoot
          apply sortNodes_pairwise_title
          intro n hn
          rcases List.mem_filterMap.mp hn with ⟨f, _, hf⟩
          rcases Option.map_eq_some'.mp hf with ⟨fd, _, rfl⟩
          rfl
        | some p =>
          injection h with h
          subst h
          unfold retrieveReadChildren
          exact sortNodes_pairwise_foldersFirst _
      | write =>
        exact absurd h (by simp [retrieveGoogleDriveConnectorPermissions])
      | read_write =>
        exact absurd h (by simp [retrieveGoogleDriveConnectorPermissions])
      | none =>
        exact absurd h (by simp [retrieveGoogleDriveConnectorPermissions])

theorem retrievePermissions_sorted_witness :
    (retrieveReadChildren ⟨1, "google_drive", Option.none⟩
      [⟨1, "idA", some "p", "Beta", "text/plain", some 3⟩,
       ⟨1, "idB", some "p", "Alpha", "application/vnd.google-apps.folder", some 4⟩]
      "p").Pairwise nodeSpecOrder :=
  retrievePermissions_sorted (some ⟨1, "google_drive", Option.none⟩) []
    [⟨1, "idA", some "p", "Beta", "text/plain", some 3⟩,
     ⟨1, "idB", some "p", "Alpha", "application/vnd.google-apps.folder", some 4⟩]
    ⟨fun _ => Option.none, [], fun _ => [], Option.none⟩
    (some "p") (some ConnectorPermission.read) _ rfl

/-- C4: listVisibleNodes with the read filter and a null parent returns Ok,
and its result holds exactly the folders that have a GoogleDriveFolders row
for the connector and still resolve remotely, each enriched via readRootNode
with the live remote name and update time; a selected folder missing remotely
is silently excluded instead of producing an error. -/
theorem retrieveReadRoot_exactly_mirrored
    (c : ConnectorRow) (folders : List GoogleDriveFolder)
    (files : List GoogleDriveFile) (env : RemoteEnv) :
    ∃ nodes,
      retrieveGoogleDriveConnectorPermissions (some c) folders files env
        Option.none (some ConnectorPermission.read) = .Ok nodes ∧
      ∀ n, n ∈ nodes ↔ ∃ f, f ∈ folders ∧ f.connectorId = c.id ∧
        ∃ fd, env.getObject f.folderId = some fd ∧
          n = readRootNode c files f fd := by
  refine ⟨retrieveReadRoot c folders files env.getObject, rfl, fun n => ?_⟩
  unfold retrieveReadRoot sortNodes foldersForConnector
  rw [List.mem_mergeSort, List.mem_filterMap]
  constructor
  · rintro ⟨f, hf, hmap⟩
    rcases List.mem_filter.mp hf with ⟨hmem, hcid⟩
    rcases Option.map_eq_some'.mp hmap with ⟨fd, hobj, rfl⟩
    exact ⟨f, hmem, by simpa using hcid, fd, hobj, rfl⟩
  · rintro ⟨f, hmem, hcid, fd, hobj, rfl⟩
    refine ⟨f, List.mem_filter.mpr ⟨hmem, by simpa using hcid⟩, ?_⟩
    rw [hobj]
    rfl

/-- C10: in a read-only children listing every returned node carries
parentInternalId null and permission read, even though each node was selected
as a child of the supplied parent id in the local mirror. -/
theorem retrieveReadChildren_drops_parent_link
    (c : ConnectorRow) (folders : List GoogleDriveFolder)
    (files : List GoogleDriveFile) (env : RemoteEnv) (parent : String)
    (nodes : List ConnectorNode)
    (h : retrieveGoogleDriveConnectorPermissions (some c) folders files env
      (some parent) (some ConnectorPermission.read) = .Ok nodes) :
    ∀ n ∈ nodes, n.parentInternalId = Option.none ∧
      n.permission = ConnectorPermission.read ∧
      ∃ f ∈ filesForParent files c.id parent, n = readChildNode c files f := by
  injection h with h
  subst h
  intro n hn
  unfold retrieveReadChildren sortNodes at hn
  rw [List.mem_mergeSort] at hn
  rcases List.mem_map.mp hn with ⟨f, hf, rfl⟩
  exact ⟨rfl, rfl, f, hf, rfl⟩

theorem retrieveReadChildren_drops_parent_link_witness :
    (readChildNode ⟨1, "google_drive", Option.none⟩
      [⟨1, "idA", some "p", "Doc", "text/plain", some 3⟩]
      ⟨1, "idA", some "p", "Doc", "text/plain", some 3⟩).parentInternalId =
        Option.none ∧
    (readChildNode ⟨1, "google_drive", Option.none⟩
      [⟨1, "idA", some "p", "Doc", "text/plain", some 3⟩]
      ⟨1, "idA", some "p", "Doc", "text/plain", some 3⟩).permission =
        ConnectorPermission.read ∧
    ∃ f ∈ filesForParent [⟨1, "idA", some "p", "Doc", "text/plain", some 3⟩] 1 "p",
      readChildNode ⟨1, "google_drive", Option.none⟩
        [⟨1, "idA", some "p", "Doc", "text/plain", some 3⟩]
        ⟨1, "idA", some "p", "Doc", "text/plain", some 3⟩ =
      readChildNode ⟨1, "google_drive", Option.none⟩
        [⟨1, "idA", some "p", "Doc", "text/plain", some 3⟩] f :=
  retrieveReadChildren_drops_parent_link ⟨1, "google_drive", Option.none⟩ []
    [⟨1, "idA", some "p", "Doc", "text/plain", some 3⟩]
    ⟨fun _ => Option.none, [], fun _ => [], Option.none⟩ "p" _ rfl
    (readChildNode ⟨1, "google_drive", Option.none⟩
      [⟨1, "idA", some "p", "Doc", "text/plain", some 3⟩]
      ⟨1, "idA", some "p", "Doc", "text/plain", some 3⟩)
    (by simp [retrieveReadChildren, sortNodes, filesForParent])

/-- The validation the loop of setGoogleDriveConnectorPermissions performs on
each entry: only "read" and "none" are accepted. -/
def isValidPermissionValue (p : ConnectorPermission) : Bool :=
  p == ConnectorPermission.read || p == ConnectorPermission.none

/-- The effect of one valid entry on the GoogleDriveFolders table. -/
def applyValidEntry (cid : Nat) (folders : List GoogleDriveFolder)
    (e : String × ConnectorPermission) : List GoogleDriveFolder :=
  match e.2 with
  | ConnectorPermission.none => destroyFolder folders cid e.1
  | ConnectorPermission.read => upsertFolder folders cid e.1
  | _ => folders

theorem applyPermissionEntries_invalid (cid : Nat)
    (entries : List (String × ConnectorPermission))
    (h : entries.all (fun e => isValidPermissionValue e.2) = false) :
    ∀ folders b, ∃ bad,
      applyPermissionEntries cid entries folders b =
        ((entries.takeWhile (fun e => isValidPermissionValue e.2)).foldl
          (applyValidEntry cid) folders, true, some bad) := by
  induction entries with
  | nil => simp at h
  | cons e rest ih =>
    intro folders b
    obtain ⟨id, p⟩ := e
    cases p with
    | read =>
      have hrest : rest.all (fun e => isValidPermissionValue e.2) = false := by
        simpa [isValidPermissionValue] using h
      obtain ⟨bad, hb⟩ := ih hrest (upsertFolder folders cid id) true
      refine ⟨bad, ?_⟩
      show applyPermissionEntries cid rest (upsertFolder folders cid id) true = _
      rw [hb]
      simp [isValidPermissionValue, applyValidEntry]
    | none =>
      have hrest : rest.all (fun e => isValidPermissionValue e.2) = false := by
        simpa [isValidPermissionValue] using h
      obtain ⟨bad, hb⟩ := ih hrest (destroyFolder folders cid id) true
      refine ⟨bad, ?_⟩
      show applyPermissionEntries cid rest (destroyFolder folders cid id) true = _
      rw [hb]
      simp [isValidPermissionValue, applyValidEntry]
    | write =>
      exact ⟨(id, ConnectorPermission.write),
        by simp [applyPermissionEntries, isValidPermissionValue]⟩
    | read_write =>
      exact ⟨(id, ConnectorPermission.read_write),
        by simp [applyPermissionEntries, isValidPermissionValue]⟩

/-- C1 counterexample: a batch whose first entry is a "read" grant and whose
second entry carries the invalid value "write" fails with the invalid
permission error, yet the GoogleDriveFolders table has already changed: the
first entry was applied before the failure was reported. -/
theorem setPermissions_applies_prefix_before_invalid :
    (setGoogleDriveConnectorPermissions (some ⟨1, "google_drive", Option.none⟩)
      1 [("A", ConnectorPermission.read), ("B", ConnectorPermission.write)]
      []).result.isErr = true ∧
    (setGoogleDriveConnectorPermissions (some ⟨1, "google_drive", Option.none⟩)
      1 [("A", ConnectorPermission.read), ("B", ConnectorPermission.write)]
      []).folders = [⟨1, "A"⟩] := by
  decide

/-- C1 amended: an invalid entry makes the call fail with the invalid
permission error and keeps the full-sync workflow from launching, but the
validation is inline rather than an all-or-nothing pass: the valid prefix of
the batch preceding the first invalid entry has already been applied (so the
table is unchanged only when the invalid entry comes first). -/
theorem setPermissions_invalid_entry_fails_after_prefix
    (c : ConnectorRow) (cid : Nat)
    (perms : List (String × ConnectorPermission))
    (folders : List GoogleDriveFolder)
    (h : perms.all (fun e => isValidPermissionValue e.2) = false) :
    (setGoogleDriveConnectorPermissions (some c) cid perms
      folders).result.isErr = true ∧
    (setGoogleDriveConnectorPermissions (some c) cid perms
      folders).fullSyncLaunched = false ∧
    (setGoogleDriveConnectorPermissions (some c) cid perms folders).folders =
      (perms.takeWhile (fun e => isValidPermissionValue e.2)).foldl
        (applyValidEntry cid) folders := by
  obtain ⟨bad, hb⟩ := applyPermissionEntries_invalid cid perms h folders false
  obtain ⟨bid, bp⟩ := bad
  simp [setGoogleDriveConnectorPermissions, hb, Result.isErr]

theorem setPermissions_invalid_entry_fails_after_prefix_witness :
    (setGoogleDriveConnectorPermissions (some ⟨1, "google_drive", Option.none⟩)
      1 [("A", ConnectorPermission.read), ("B", ConnectorPermission.read_write)]
      []).result.isErr = true ∧
    (setGoogleDriveConnectorPermissions (some ⟨1, "google_drive", Option.none⟩)
      1 [("A", ConnectorPermission.read), ("B", ConnectorPermission.read_write)]
      []).fullSyncLaunched = false ∧
    (setGoogleDriveConnectorPermissions (some ⟨1, "google_drive", Option.none⟩)
      1 [("A", ConnectorPermission.read), ("B", ConnectorPermission.read_write)]
      []).folders =
      ([("A", ConnectorPermission.read),
        ("B", ConnectorPermission.read_write)].takeWhile
          (fun e => isValidPermissionValue e.2)).foldl (applyValidEntry 1) [] :=
  setPermissions_invalid_entry_fails_after_prefix ⟨1, "google_drive", Option.none⟩
    1 [("A", ConnectorPermission.read), ("B", ConnectorPermission.read_write)]
    [] (by decide)

/-- C2 counterexample: revoking a folder that has no GoogleDriveFolders row
succeeds with a zero-row deletion and no error, but the full-sync workflow is
launched anyway, although no change was applied. -/
theorem setPermissions_noop_revoke_still_syncs :
    (setGoogleDriveConnectorPermissions (some ⟨1, "google_drive", Option.none⟩)
      1 [("F2", ConnectorPermission.none)] []).result.isOk = true ∧
    (setGoogleDriveConnectorPermissions (some ⟨1, "google_drive", Option.none⟩)
      1 [("F2", ConnectorPermission.none)] []).folders = [] ∧
    (setGoogleDriveConnectorPermissions (some ⟨1, "google_drive", Option.none⟩)
      1 [("F2", ConnectorPermission.none)] []).fullSyncLaunched = true := by
  decide

/-- C2 amended: revoking a folder id with no GoogleDriveFolders row completes
successfully, deletes zero rows and leaves the table unchanged, but the
full-sync workflow is launched for every nonempty validated batch regardless
of whether any change was applied; only an empty batch skips the launch. -/
theorem setPermissions_revoke_absent_ok_but_syncs
    (c : ConnectorRow) (cid : Nat) (id : String)
    (folders : List GoogleDriveFolder)
    (h : hasFolderRow folders cid id = false) :
    setGoogleDriveConnectorPermissions (some c) cid
      [(id, ConnectorPermission.none)] folders = ⟨folders, true, .Ok ()⟩ ∧
    setGoogleDriveConnectorPermissions (some c) cid [] folders =
      ⟨folders, false, .Ok ()⟩ := by
  constructor
  · have hdes : destroyFolder folders cid id = folders := by
      apply List.filter_eq_self.mpr
      intro a ha
      have h2 := List.any_eq_false.mp h a ha
      simp only [Bool.not_eq_true']
      exact Bool.eq_false_iff.mpr h2
    simp [setGoogleDriveConnectorPermissions, applyPermissionEntries, hdes]
  · rfl

theorem setPermissions_revoke_absent_ok_but_syncs_witness :
    setGoogleDriveConnectorPermissions (some ⟨1, "google_drive", Option.none⟩)
      1 [("F2", ConnectorPermission.none)] [⟨1, "F1"⟩] =
      ⟨[⟨1, "F1"⟩], true, .Ok ()⟩ ∧
    setGoogleDriveConnectorPermissions (some ⟨1, "google_drive", Option.none⟩)
      1 [] [⟨1, "F1"⟩] = ⟨[⟨1, "F1"⟩], false, .Ok ()⟩ :=
  setPermissions_revoke_absent_ok_but_syncs ⟨1, "google_drive", Option.none⟩
    1 "F2" [⟨1, "F1"⟩] (by decide)

theorem upsertFolder_of_present (folders : List GoogleDriveFolder) (cid : Nat)
    (id : String) (h : hasFolderRow folders cid id = true) :
    upsertFolder folders cid id = folders := by
  simp [upsertFolder, h]

theorem hasFolderRow_upsertFolder (folders : List GoogleDriveFolder)
    (cid : Nat) (id : String) :
    hasFolderRow (upsertFolder folders cid id) cid id = true := by
  unfold upsertFolder
  split
  · assumption
  · simp [hasFolderRow, List.any_append]

/-- C5: granting "read" on the same folder twice leaves exactly the
GoogleDriveFolders table of granting it once (the upsert is idempotent), and
one grant inserts at most one new row. -/
theorem setPermissions_read_idempotent (c : ConnectorRow) (cid : Nat)
    (A : String) (folders : List GoogleDriveFolder) :
    (setGoogleDriveConnectorPermissions (some c) cid
      [(A, ConnectorPermission.read)]
      (setGoogleDriveConnectorPermissions (some c) cid
        [(A, ConnectorPermission.read)] folders).folders).folders =
      (setGoogleDriveConnectorPermissions (some c) cid
        [(A, ConnectorPermission.read)] folders).folders ∧
    (setGoogleDriveConnectorPermissions (some c) cid
      [(A, ConnectorPermission.read)] folders).folders.length ≤
      folders.length + 1 := by
  have h1 : ∀ fs, (setGoogleDriveConnectorPermissions (some c) cid
      [(A, ConnectorPermission.read)] fs).folders = upsertFolder fs cid A :=
    fun fs => rfl
  simp only [h1]
  constructor
  · exact upsertFolder_of_present _ _ _ (hasFolderRow_upsertFolder folders cid A)
  · unfold upsertFolder
    split
    · exact Nat.le_succ_of_le (Nat.le_refl _)
    · simp

theorem mem_setRecordKey (m : List (String × String)) (k0 v0 k v : String)
    (h : (k, v) ∈ setRecordKey m k0 v0) :
    (k, v) ∈ m ∨ (k = k0 ∧ v = v0) := by
  unfold setRecordKey at h
  split at h
  · rcases List.mem_map.mp h with ⟨p, hp, he⟩
    split at he
    · injection he with h1 h2
      exact Or.inr ⟨h1.symm, h2.symm⟩
    · exact Or.inl (he ▸ hp)
  · rcases List.mem_append.mp h with hm | hm
    · exact Or.inl hm
    · have he := List.mem_singleton.mp hm
      injection he with h1 h2
      exact Or.inr ⟨h1, h2⟩

theorem mem_foldl_setRecordKey (l : List GoogleDriveFile) :
    ∀ (m : List (String × String)) (k v : String),
      (k, v) ∈ l.foldl (fun acc f => setRecordKey acc f.driveFileId f.name) m →
      (k, v) ∈ m ∨ ∃ f, f ∈ l ∧ f.driveFileId = k ∧ f.name = v := by
  induction l with
  | nil => intro m k v h; exact Or.inl h
  | cons f rest ih =>
    intro m k v h
    rcases ih (setRecordKey m f.driveFileId f.name) k v h with hm | ⟨g, hg, hk, hv⟩
    · rcases mem_setRecordKey m f.driveFileId f.name k v hm with hm2 | ⟨hk, hv⟩
      · exact Or.inl hm2
      · exact Or.inr ⟨f, List.mem_cons_self f rest, hk.symm, hv.symm⟩
    · exact Or.inr ⟨g, List.mem_cons_of_mem f hg, hk, hv⟩

/-- C9: resolveTitles (retrieveGoogleDriveObjectsTitles) is a purely local
lookup that always returns Ok; every entry of the returned record corresponds
to a requested id that has a mirrored row with that cached name, so unknown
ids are simply absent, and an empty or all-unknown id list yields an empty
record, never an error. -/
theorem retrieveTitles_total_local (cid : Nat) (ids : List String)
    (files : List GoogleDriveFile) :
    ∃ m, retrieveGoogleDriveObjectsTitles cid ids files = .Ok m ∧
      (∀ k v, (k, v) ∈ m → k ∈ ids ∧
        ∃ f, f ∈ files ∧ f.connectorId = cid ∧ f.driveFileId = k ∧
          f.name = v) ∧
      (ids = [] → m = []) ∧
      ((∀ f ∈ files, f.connectorId = cid → f.driveFileId ∉ ids) → m = []) := by
  refine ⟨_, rfl, ?_, ?_, ?_⟩
  · intro k v hkv
    rcases mem_foldl_setRecordKey _ _ _ _ hkv with h | ⟨f, hf, hk, hv⟩
    · cases h
    · rcases List.mem_filter.mp hf with ⟨hmem, hpred⟩
      rw [Bool.and_eq_true, beq_iff_eq] at hpred
      obtain ⟨hc, hcontains⟩ := hpred
      have hidmem : f.driveFileId ∈ ids := by
        rw [List.contains_iff_exists_mem_beq] at hcontains
        rcases hcontains with ⟨a, ha, hbeq⟩
        exact (beq_iff_eq.mp hbeq) ▸ ha
      exact ⟨hk ▸ hidmem, f, hmem, hc, hk, hv⟩
  · intro h
    subst h
    have hf : files.filter
        (fun f => f.connectorId == cid && List.contains [] f.driveFileId) = [] := by
      apply List.filter_eq_nil_iff.mpr
      intro a _
      simp
    rw [hf]
    rfl
  · intro h
    have hf : files.filter
        (fun f => f.connectorId == cid && ids.contains f.driveFileId) = [] := by
      apply List.filter_eq_nil_iff.mpr
      intro a ha
      rw [Bool.not_eq_true, Bool.and_eq_false_iff]
      by_cases hc : a.connectorId = cid
      · right
        have := h a ha hc
        rw [← Bool.not_eq_true, List.contains_iff_exists_mem_beq]
        intro ⟨b, hb, hbeq⟩
        exact this (beq_iff_eq.mp hbeq ▸ hb)
      · left
        exact beq_eq_false_iff_ne.mpr hc
    rw [hf]
    rfl

theorem retrieveTitles_total_local_witness :
    ∃ m, retrieveGoogleDriveObjectsTitles 1 [] [] = .Ok m ∧
      (∀ k v, (k, v) ∈ m → k ∈ ([] : List String) ∧
        ∃ f, f ∈ ([] : List GoogleDriveFile) ∧ f.connectorId = 1 ∧
          f.driveFileId = k ∧ f.name = v) ∧
      (([] : List String) = [] → m = []) ∧
      ((∀ f ∈ ([] : List GoogleDriveFile), f.connectorId = 1 →
        f.driveFileId ∉ ([] : List String)) → m = []) :=
  retrieveTitles_total_local 1 [] []

/-- C6 counterexample: a well-formed notification (channel id present and
resolving to an existing unpaused connector) whose incremental-sync launch
fails with a non-rate-limit error is answered with HTTP 500, so the outcome
of the internal sync trigger can produce a failure status. -/
theorem webhook_launch_failure_returns_500 :
    webhookGoogleDriveAPIHandler
      ⟨[⟨"ch1", 1⟩], [⟨1, "google_drive", Option.none⟩],
        fun _ => LaunchOutcome.failed "boom"⟩
      ⟨some "ch1", Option.none⟩ = ⟨500, [1]⟩ := by
  rfl

/-- C6 amended: the endpoint acknowledges with 200 whenever the launch
succeeds or is rejected by the rate limiter (the rate-limit condition is only
logged), and returns 400 for a missing or empty channel id and for an
unresolvable connector id; however it returns 404 when the resolved connector
row does not exist and 500 when the launch fails with a non-rate-limit
error. -/
theorem webhook_status_policy (env : WebhookEnv) (req : WebhookRequest) :
    (jsTruthyString req.channelIdHeader = Option.none →
      webhookGoogleDriveAPIHandler env req = ⟨400, []⟩) ∧
    (∀ ch, jsTruthyString req.channelIdHeader = some ch →
      resolveConnectorIdTruthy env req ch = Option.none →
      webhookGoogleDriveAPIHandler env req = ⟨400, []⟩) ∧
    (∀ ch cid, jsTruthyString req.channelIdHeader = some ch →
      resolveConnectorIdTruthy env req ch = some cid →
      (env.connectors.find? (fun c => c.id == cid) = Option.none →
        webhookGoogleDriveAPIHandler env req = ⟨404, []⟩) ∧
      (∀ c, env.connectors.find? (fun c2 => c2.id == cid) = some c →
        c.isPaused = false →
        (env.launchIncrementalSync cid = LaunchOutcome.launched →
          webhookGoogleDriveAPIHandler env req = ⟨200, [cid]⟩) ∧
        (env.launchIncrementalSync cid = LaunchOutcome.rateLimited →
          webhookGoogleDriveAPIHandler env req = ⟨200, [cid]⟩) ∧
        (∀ msg, env.launchIncrementalSync cid = LaunchOutcome.failed msg →
          webhookGoogleDriveAPIHandler env req = ⟨500, [cid]⟩))) := by
  refine ⟨?_, ?_, ?_⟩
  · intro h
    simp [webhookGoogleDriveAPIHandler, h]
  · intro ch h1 h2
    simp [webhookGoogleDriveAPIHandler, h1, h2]
  · intro ch cid h1 h2
    constructor
    · intro h3
      simp [webhookGoogleDriveAPIHandler, handleResolvedConnector, h1, h2, h3]
    · intro c h3 h4
      refine ⟨?_, ?_, ?_⟩
      · intro h5
        simp [webhookGoogleDriveAPIHandler, handleResolvedConnector,
          h1, h2, h3, h4, h5]
      · intro h5
        simp [webhookGoogleDriveAPIHandler, handleResolvedConnector,
          h1, h2, h3, h4, h5]
      · intro msg h5
        simp [webhookGoogleDriveAPIHandler, handleResolvedConnector,
          h1, h2, h3, h4, h5]

theorem webhook_status_policy_witness :
    webhookGoogleDriveAPIHandler
      ⟨[⟨"ch1", 1⟩], [⟨1, "google_drive", Option.none⟩],
        fun _ => LaunchOutcome.rateLimited⟩
      ⟨some "ch1", Option.none⟩ = ⟨200, [1]⟩ := by
  have h := (webhook_status_policy
      ⟨[⟨"ch1", 1⟩], [⟨1, "google_drive", Option.none⟩],
        fun _ => LaunchOutcome.rateLimited⟩
      ⟨some "ch1", Option.none⟩).2.2 "ch1" 1 (by decide) (by decide)
  exact (h.2 ⟨1, "google_drive", Option.none⟩ (by decide) (by decide)).2.1
    (by decide)

/-- C7: a notification whose channel id matches no GoogleDriveWebhook row but
whose route carries a connector id parameter that parses to a nonzero id is
handled exactly as a resolved notification for that connector id (the same
post-resolution path as when the channel row is found, which for an existing
unpaused connector invokes the incremental-sync launch once); only when
neither the channel id nor the route parameter resolves does the endpoint
fail. -/
theorem webhook_fallback_resolution (env : WebhookEnv) :
    (∀ req ch s cid,
      jsTruthyString req.channelIdHeader = some ch →
      env.webhooks.find? (fun w => w.webhookId == ch) = Option.none →
      jsTruthyString req.connectorIdParam = some s →
      parseIntJS s = some cid → cid ≠ 0 →
      webhookGoogleDriveAPIHandler env req = handleResolvedConnector env cid) ∧
    (∀ req ch w,
      jsTruthyString req.channelIdHeader = some ch →
      env.webhooks.find? (fun w2 => w2.webhookId == ch) = some w →
      w.connectorId ≠ 0 →
      webhookGoogleDriveAPIHandler env req =
        handleResolvedConnector env w.connectorId) ∧
    (∀ req ch,
      jsTruthyString req.channelIdHeader = some ch →
      resolveConnectorIdTruthy env req ch = Option.none →
      webhookGoogleDriveAPIHandler env req = ⟨400, []⟩) ∧
    (∀ cid c, env.connectors.find? (fun c2 => c2.id == cid) = some c →
      c.isPaused = false →
      (handleResolvedConnector env cid).launchCalls = [cid]) := by
  refine ⟨?_, ?_, ?_, ?_⟩
  · intro req ch s cid h1 h2 h3 h4 h5
    simp [webhookGoogleDriveAPIHandler, resolveConnectorIdTruthy,
      resolveConnectorId, h1, h2, h3, h4, h5]
  · intro req ch w h1 h2 h3
    simp [webhookGoogleDriveAPIHandler, resolveConnectorIdTruthy,
      resolveConnectorId, h1, h2, h3]
  · intro req ch h1 h2
    simp [webhookGoogleDriveAPIHandler, h1, h2]
  · intro cid c h1 h2
    simp only [handleResolvedConnector, h1, h2, Bool.false_eq_true, if_false]
    cases env.launchIncrementalSync cid <;> rfl

theorem webhook_fallback_resolution_witness :
    webhookGoogleDriveAPIHandler
      ⟨[], [⟨7, "google_drive", Option.none⟩], fun _ => LaunchOutcome.launched⟩
      ⟨some "chZ", some "7"⟩ =
    handleResolvedConnector
      ⟨[], [⟨7, "google_drive", Option.none⟩], fun _ => LaunchOutcome.launched⟩
      7 :=
  (webhook_fallback_resolution
    ⟨[], [⟨7, "google_drive", Option.none⟩],
      fun _ => LaunchOutcome.launched⟩).1
    ⟨some "chZ", some "7"⟩ "chZ" "7" 7 (by decide) (by decide) (by decide)
    (by decide) (by decide)

/-- C8: a notification that resolves to an administratively paused connector
is acknowledged with HTTP 200 and the incremental-sync launcher is never
invoked (zero calls to the Sync Orchestrator); this is not reported as an
error. -/
theorem webhook_paused_connector_dropped (env : WebhookEnv)
    (req : WebhookRequest) (ch : String) (cid : Nat) (c : ConnectorRow)
    (h1 : jsTruthyString req.channelIdHeader = some ch)
    (h2 : resolveConnectorIdTruthy env req ch = some cid)
    (h3 : env.connectors.find? (fun c2 => c2.id == cid) = some c)
    (h4 : c.isPaused = true) :
    webhookGoogleDriveAPIHandler env req = ⟨200, []⟩ := by
  simp [webhookGoogleDriveAPIHandler, handleResolvedConnector, h1, h2, h3, h4]

theorem webhook_paused_connector_dropped_witness :
    webhookGoogleDriveAPIHandler
      ⟨[⟨"chP", 3⟩], [⟨3, "google_drive", some 5⟩],
        fun _ => LaunchOutcome.launched⟩
      ⟨some "chP", Option.none⟩ = ⟨200, []⟩ :=
  webhook_paused_connector_dropped
    ⟨[⟨"chP", 3⟩], [⟨3, "google_drive", some 5⟩],
      fun _ => LaunchOutcome.launched⟩
    ⟨some "chP", Option.none⟩ "chP" 3 ⟨3, "google_drive", some 5⟩
    (by decide) (by decide) (by decide) (by decide)
